import Mathlib

/-!
Verification development for the UBMM backlog domain service.

Shallow embedding of the Go sources:
- entity model (`BacklogItem` and its methods) from the domain model file;
- domain service operations (`CreateItem`, `GetItem`, `UpdateItem`,
  `DeleteItem`, `ReorderItems`, `SetExternalID`) from the backlog service file;
- metrics helpers (`calculateIcebergRatio`, `determineHealthStatus`);
- event replay (`ReplayEvents`) from the Postgres event adapter.

Conventions of the embedding:
- UUIDs are modelled as `Nat` (with `0` playing the role of `uuid.Nil`);
- wall-clock timestamps are modelled as a `Nat` parameter `now` passed to
  every operation that calls `time.Now()`;
- Go `float64` arithmetic in the metrics helpers is modelled with exact
  rationals (`ℚ`); the Go source literal `0.33` becomes `33/100`;
- Go maps (`ExternalIDs`, the reorder priority map) are modelled as
  association lists with upsert semantics (last write per key wins);
- fallible Go functions returning `error` become `Except DomainError`;
- the relational store is a list of items, the cache an association list
  from string keys to cached values.
-/

inductive ItemType where
  | EPIC
  | FEATURE
  | STORY
deriving DecidableEq

inductive ItemStatus where
  | NEW
  | READY
  | IN_PROGRESS
  | DONE
  | BLOCKED
deriving DecidableEq

/-- Error taxonomy: one constructor per distinct error string returned by the
Go domain model and service code. -/
inductive DomainError where
  | titleEmpty
  | invalidItemType
  | invalidItemStatus
  | negativeStoryPoints
  | epicCannotHaveParent
  | invalidParentChild
  | itemNotFound
  | hasChildren
deriving DecidableEq

/-- The `BacklogItem` aggregate, field for field from the Go struct. -/
structure BacklogItem where
  id : Nat
  type : ItemType
  parentId : Option Nat
  title : String
  description : String
  storyPoints : Int
  status : ItemStatus
  priority : Int
  assignee : String
  tags : List String
  createdAt : Nat
  updatedAt : Nat
  externalIds : List (String × String)
deriving DecidableEq

/-- Go `isValidItemType`: membership in the three declared constants. The Lean
`ItemType` is a closed inductive, so every value is valid. -/
def isValidItemType (itemType : ItemType) : Bool :=
  match itemType with
  | ItemType.EPIC => true
  | ItemType.FEATURE => true
  | ItemType.STORY => true

/-- Go `isValidItemStatus`: membership in the five declared constants. -/
def isValidItemStatus (status : ItemStatus) : Bool :=
  match status with
  | ItemStatus.NEW => true
  | ItemStatus.READY => true
  | ItemStatus.IN_PROGRESS => true
  | ItemStatus.DONE => true
  | ItemStatus.BLOCKED => true

/-- Go `NewBacklogItem`: rejects an empty title and an invalid type, otherwise
builds the item with status NEW, priority 0, no tags, no external ids.
`freshId` models `uuid.New()` and `now` models `time.Now().UTC()`. -/
def NewBacklogItem (freshId now : Nat) (itemType : ItemType)
    (title description : String) : Except DomainError BacklogItem :=
  if title = "" then Except.error DomainError.titleEmpty
  else if ¬ isValidItemType itemType then Except.error DomainError.invalidItemType
  else Except.ok
    { id := freshId
      type := itemType
      parentId := none
      title := title
      description := description
      storyPoints := 0
      status := ItemStatus.NEW
      priority := 0
      assignee := ""
      tags := []
      createdAt := now
      updatedAt := now
      externalIds := [] }

/-- Go `BacklogItem.UpdateTitle`: rejects only the empty string. -/
def BacklogItem.updateTitle (i : BacklogItem) (title : String) (now : Nat) :
    Except DomainError BacklogItem :=
  if title = "" then Except.error DomainError.titleEmpty
  else Except.ok { i with title := title, updatedAt := now }

/-- Go `BacklogItem.UpdateDescription` (infallible). -/
def BacklogItem.updateDescription (i : BacklogItem) (description : String)
    (now : Nat) : BacklogItem :=
  { i with description := description, updatedAt := now }

/-- Go `BacklogItem.UpdateStatus`: rejects invalid status values. -/
def BacklogItem.updateStatus (i : BacklogItem) (status : ItemStatus) (now : Nat) :
    Except DomainError BacklogItem :=
  if ¬ isValidItemStatus status then Except.error DomainError.invalidItemStatus
  else Except.ok { i with status := status, updatedAt := now }

/-- Go `BacklogItem.UpdateStoryPoints`: rejects negative values. -/
def BacklogItem.updateStoryPoints (i : BacklogItem) (points : Int) (now : Nat) :
    Except DomainError BacklogItem :=
  if points < 0 then Except.error DomainError.negativeStoryPoints
  else Except.ok { i with storyPoints := points, updatedAt := now }

/-- Go `BacklogItem.UpdatePriority` (infallible). -/
def BacklogItem.updatePriority (i : BacklogItem) (priority : Int) (now : Nat) :
    BacklogItem :=
  { i with priority := priority, updatedAt := now }

/-- Go `BacklogItem.UpdateParent`: an epic may not be given a parent. -/
def BacklogItem.updateParent (i : BacklogItem) (parentId : Option Nat) (now : Nat) :
    Except DomainError BacklogItem :=
  if parentId.isSome ∧ i.type = ItemType.EPIC then
    Except.error DomainError.epicCannotHaveParent
  else Except.ok { i with parentId := parentId, updatedAt := now }

/-- Go `BacklogItem.AddTag`: appends the tag unless already present; the
timestamp moves only when the tag is actually added. -/
def BacklogItem.addTag (i : BacklogItem) (tag : String) (now : Nat) : BacklogItem :=
  if i.tags.contains tag then i
  else { i with tags := i.tags ++ [tag], updatedAt := now }

/-- Upsert into an association list: the model of assignment into a Go map.
The last write for a given key wins. -/
def upsertAssoc (m : List (String × String)) (k v : String) :
    List (String × String) :=
  match m with
  | [] => [(k, v)]
  | (k', v') :: rest =>
    if k' = k then (k, v) :: rest else (k', v') :: upsertAssoc rest k v

/-- Go `BacklogItem.SetExternalID`: map assignment plus timestamp update. -/
def BacklogItem.setExternalID (i : BacklogItem) (system externalID : String)
    (now : Nat) : BacklogItem :=
  { i with externalIds := upsertAssoc i.externalIds system externalID,
           updatedAt := now }

/-- Go `isValidParentChild` from the domain service: only Epic→Feature and
Feature→Story are valid pairings. -/
def isValidParentChild (parentType childType : ItemType) : Bool :=
  if parentType = ItemType.EPIC ∧ childType = ItemType.FEATURE then true
  else if parentType = ItemType.FEATURE ∧ childType = ItemType.STORY then true
  else false

/-- Go `abs` helper from the domain service (float absolute value). -/
def goAbs (x : ℚ) : ℚ :=
  if x < 0 then -x else x

/-- Go `calculateIcebergRatio`: shares of each type against the literal
constant `0.33` (not `1/3`), deviation halved and subtracted from 1, with no
clamping. Float arithmetic is modelled exactly over `ℚ`. -/
def calculateIcebergRatio (epicCount featureCount storyCount : Int) : ℚ :=
  let total : Int := epicCount + featureCount + storyCount
  if total = 0 then 0
  else
    let epicShare : ℚ := (epicCount : ℚ) / (total : ℚ)
    let featureShare : ℚ := (featureCount : ℚ) / (total : ℚ)
    let storyShare : ℚ := (storyCount : ℚ) / (total : ℚ)
    let deviation : ℚ :=
      goAbs (epicShare - 33/100) + goAbs (featureShare - 33/100) +
        goAbs (storyShare - 33/100)
    1 - deviation / 2

/-- Go `determineHealthStatus`: the cascade of threshold checks, in source
order. `leadTime` is the float lead-time in days, modelled as `ℚ`. -/
def determineHealthStatus (epicCount featureCount storyCount wipCount : Int)
    (leadTime : ℚ) : String :=
  let totalItems : Int := epicCount + featureCount + storyCount
  if totalItems > 150 then "AT_RISK"
  else if wipCount > 20 ∨ leadTime > 60 then "WARNING"
  else if totalItems ≤ 100 ∧ wipCount ≤ 10 ∧ leadTime ≤ 30 then "HEALTHY"
  else "AVERAGE"

/-- Domain events as stored in the events table, restricted to the kinds the
Postgres adapter's `GetEventsByItemID` can decode for a single item. -/
inductive DomainEvent where
  | itemCreated (itemId : Nat) (item : BacklogItem)
  | itemUpdated (itemId : Nat) (item : BacklogItem)
  | itemDeleted (itemId : Nat) (item : BacklogItem)
  | externalIdSet (itemId : Nat) (system externalId : String)
deriving DecidableEq

/-- First pass of Go `ReplayEvents`: locate the first `ItemCreatedEvent` and
take its snapshot as the base state. -/
def findCreatedItem : List DomainEvent → Option BacklogItem
  | [] => none
  | DomainEvent.itemCreated _ item :: _ => some item
  | _ :: rest => findCreatedItem rest

/-- Second pass of Go `ReplayEvents`: an update event overwrites the whole
snapshot, an external-id event upserts into the map (stamping the replay-time
clock, since Go calls `SetExternalID` which uses `time.Now()`); created and
deleted events are ignored by this pass. -/
def applyReplayEvent (now : Nat) (item : BacklogItem) : DomainEvent → BacklogItem
  | DomainEvent.itemUpdated _ snapshot => snapshot
  | DomainEvent.externalIdSet _ system externalId =>
      item.setExternalID system externalId now
  | _ => item

/-- Go `PostgresAdapter.ReplayEvents` over the item's event list, which
`GetEventsByItemID` returns ordered by `created_at` ascending: fails on an
empty list or a missing created event, otherwise folds the second pass over
every event starting from the base snapshot. -/
def replayEvents (now : Nat) (events : List DomainEvent) : Option BacklogItem :=
  if events = [] then none
  else
    match findCreatedItem events with
    | none => none
    | some base => some (events.foldl (applyReplayEvent now) base)

/-- Values stored in the cache. Go stores `interface{}`; the service only ever
stores items (`item:<id>`), list results (`list:all`, `children:<id>`) and the
metrics snapshot (`metrics`), and reads take a type assertion. `metricsVal`
stands for a cached `*BacklogMetrics` payload, whose contents no service
decision depends on. -/
inductive CacheVal where
  | itemVal (it : BacklogItem)
  | listVal (items : List BacklogItem) (total : Int)
  | metricsVal
deriving DecidableEq

/-- Model of the Redis adapter as a key/value association list (TTLs are not
modelled; an entry is either present or absent). -/
def cacheLookup (c : List (String × CacheVal)) (key : String) : Option CacheVal :=
  (c.find? (fun e => e.1 == key)).map (fun e => e.2)

/-- Cache `Delete`: removes every entry under the key. -/
def cacheDelete (c : List (String × CacheVal)) (key : String) :
    List (String × CacheVal) :=
  c.filter (fun e => e.1 ≠ key)

/-- Cache `Set`: replaces any existing entry under the key. -/
def cacheSet (c : List (String × CacheVal)) (key : String) (v : CacheVal) :
    List (String × CacheVal) :=
  (key, v) :: cacheDelete c key

/-- A cache hit for `GetItem` requires both a present entry and a successful
type assertion to `*model.BacklogItem`. -/
def cacheGetItem (c : List (String × CacheVal)) (key : String) :
    Option BacklogItem :=
  match cacheLookup c key with
  | some (CacheVal.itemVal it) => some it
  | _ => none

/-- The observable state the domain service coordinates: the relational store
(system of record) and the cache. The event log and message bus are
best-effort side channels whose failures never change these (per the Go code,
their errors are logged and dropped), so they are not part of the state. -/
structure ServiceState where
  store : List BacklogItem
  cache : List (String × CacheVal)
deriving DecidableEq

/-- Go `PostgresAdapter.GetByID`: `SELECT ... WHERE id = $1`, not-found when
no row matches. `id` is a primary key, so `find?` models the lookup. -/
def getByID (store : List BacklogItem) (id : Nat) : Option BacklogItem :=
  store.find? (fun it => it.id == id)

/-- Go `PostgresAdapter.Update`: `UPDATE ... WHERE id = item.ID`, replacing
the stored row with the given item. -/
def repoUpdate (store : List BacklogItem) (item : BacklogItem) :
    List BacklogItem :=
  store.map (fun it => if it.id == item.id then item else it)

/-- Go `PostgresAdapter.Delete`: `DELETE FROM backlog_items WHERE id = $1`. -/
def repoDelete (store : List BacklogItem) (id : Nat) : List BacklogItem :=
  store.filter (fun it => it.id ≠ id)

/-- Go `PostgresAdapter.GetChildren`: rows whose `parent_id` equals the given
id (the priority ordering is irrelevant to the service's uses). -/
def getChildrenStore (store : List BacklogItem) (parentID : Nat) :
    List BacklogItem :=
  store.filter (fun it => it.parentId == some parentID)

/-- Cache key for a single item, Go `"item:" + id.String()`. -/
def itemCacheKey (id : Nat) : String :=
  "item:" ++ toString id

/-- Go `BacklogService.invalidateListCache`: deletes the coarse list key and
the metrics key (in that order). -/
def invalidateListCache (c : List (String × CacheVal)) :
    List (String × CacheVal) :=
  cacheDelete (cacheDelete c "list:all") "metrics"

/-- Go `service.CreateItemRequest`. -/
structure CreateItemRequest where
  type : ItemType
  title : String
  description : String
  parentID : Option Nat
  storyPoints : Int
  tags : List String
  assignee : String
deriving DecidableEq

/-- Go `service.UpdateItemRequest`: every field optional; a present
`parentID` of `0` models a pointer to `uuid.Nil` (clear-parent request). -/
structure UpdateItemRequest where
  title : Option String
  description : Option String
  status : Option ItemStatus
  parentID : Option Nat
  storyPoints : Option Int
  priority : Option Int
  assignee : Option String
  tags : Option (List String)
deriving DecidableEq

/-- Go `service.ReorderRequest`. -/
structure ReorderRequest where
  itemID : Nat
  newPriority : Int
deriving DecidableEq

/-- Parent-linking block of Go `CreateItem`: when a parent id is present, the
source first calls `item.UpdateParent` (which rejects a parent on an epic),
then loads the parent (not-found surfaces) and checks the type-chain rule
against the request's type. -/
def createLinkParent (store : List BacklogItem) (item0 : BacklogItem)
    (now : Nat) (req : CreateItemRequest) : Except DomainError BacklogItem :=
  match req.parentID with
  | none => Except.ok item0
  | some pid =>
    match item0.updateParent (some pid) now with
    | Except.error e => Except.error e
    | Except.ok item1 =>
      match getByID store pid with
      | none => Except.error DomainError.itemNotFound
      | some parent =>
        if ¬ isValidParentChild parent.type req.type then
          Except.error DomainError.invalidParentChild
        else Except.ok item1

/-- Story-points block of Go `CreateItem`: `UpdateStoryPoints` is called only
when the requested value is strictly positive; zero and negative values are
silently ignored. -/
def createApplyPoints (item1 : BacklogItem) (sp : Int) (now : Nat) :
    Except DomainError BacklogItem :=
  if sp > 0 then item1.updateStoryPoints sp now
  else Except.ok item1

/-- Go `BacklogService.CreateItem`, mirroring the source's early returns:
build the entity, link and validate the parent when given, apply positive
story points, add tags, persist, then invalidate the list caches. The event
append and publish are best-effort (errors logged, state unchanged). -/
def CreateItem (s : ServiceState) (freshId now : Nat) (req : CreateItemRequest) :
    Except DomainError (BacklogItem × ServiceState) :=
  match NewBacklogItem freshId now req.type req.title req.description with
  | Except.error e => Except.error e
  | Except.ok item0 =>
    match createLinkParent s.store item0 now req with
    | Except.error e => Except.error e
    | Except.ok item1 =>
      match createApplyPoints item1 req.storyPoints now with
      | Except.error e => Except.error e
      | Except.ok item2 =>
        let item3 := req.tags.foldl (fun it tag => it.addTag tag now) item2
        Except.ok (item3,
          { store := s.store ++ [item3]
            cache := invalidateListCache s.cache })

/-- Go `BacklogService.GetItem`: read-through — a cache hit returns the cached
copy unchanged; a miss loads from the store (not-found surfaces) and
repopulates the cache under `item:<id>`. -/
def GetItem (s : ServiceState) (id : Nat) :
    Except DomainError (BacklogItem × ServiceState) :=
  match cacheGetItem s.cache (itemCacheKey id) with
  | some it => Except.ok (it, s)
  | none =>
    match getByID s.store id with
    | none => Except.error DomainError.itemNotFound
    | some it =>
      Except.ok (it, { s with cache := cacheSet s.cache (itemCacheKey id) (CacheVal.itemVal it) })

/-- Title step of Go `UpdateItem` (applied only when present). -/
def applyTitleUpdate (i : BacklogItem) (o : Option String) (now : Nat) :
    Except DomainError BacklogItem :=
  match o with
  | none => Except.ok i
  | some t => i.updateTitle t now

/-- Description step of Go `UpdateItem` (applied only when present). -/
def applyDescriptionUpdate (i : BacklogItem) (o : Option String) (now : Nat) :
    BacklogItem :=
  match o with
  | none => i
  | some d => i.updateDescription d now

/-- Status step of Go `UpdateItem` (applied only when present). -/
def applyStatusUpdate (i : BacklogItem) (o : Option ItemStatus) (now : Nat) :
    Except DomainError BacklogItem :=
  match o with
  | none => Except.ok i
  | some st => i.updateStatus st now

/-- Story-points step of Go `UpdateItem` (applied only when present; a
negative value is rejected here, unlike in `CreateItem`). -/
def applyPointsUpdate (i : BacklogItem) (o : Option Int) (now : Nat) :
    Except DomainError BacklogItem :=
  match o with
  | none => Except.ok i
  | some p => i.updateStoryPoints p now

/-- Priority step of Go `UpdateItem` (applied only when present). -/
def applyPriorityUpdate (i : BacklogItem) (o : Option Int) (now : Nat) :
    BacklogItem :=
  match o with
  | none => i
  | some p => i.updatePriority p now

/-- Parent step of Go `UpdateItem`: when the request carries a parent pointer,
a non-nil id must exist and satisfy the type-chain rule against the item's
type; `UpdateParent` is then called with the pointer (also when it is the nil
uuid, modelled as 0). -/
def applyParentUpdate (store : List BacklogItem) (i : BacklogItem)
    (o : Option Nat) (now : Nat) : Except DomainError BacklogItem :=
  match o with
  | none => Except.ok i
  | some pid =>
    if pid ≠ 0 then
      match getByID store pid with
      | none => Except.error DomainError.itemNotFound
      | some parent =>
        if ¬ isValidParentChild parent.type i.type then
          Except.error DomainError.invalidParentChild
        else i.updateParent (some pid) now
    else i.updateParent (some pid) now

/-- Assignee step of Go `UpdateItem`: a direct field assignment, with no
timestamp update. -/
def applyAssigneeUpdate (i : BacklogItem) (o : Option String) : BacklogItem :=
  match o with
  | none => i
  | some a => { i with assignee := a }

/-- Tags step of Go `UpdateItem`: clears the tag list, then re-adds each
requested tag through `AddTag`. -/
def applyTagsUpdate (i : BacklogItem) (o : Option (List String)) (now : Nat) :
    BacklogItem :=
  match o with
  | none => i
  | some ts => ts.foldl (fun it tag => it.addTag tag now) { i with tags := [] }

/-- Go `BacklogService.UpdateItem`: loads the item, applies exactly the
present fields in source order (title, description, status, story points,
priority, parent, assignee, tags), persists, and invalidates `item:<id>`,
`list:all` and `metrics`. -/
def UpdateItem (s : ServiceState) (id now : Nat) (req : UpdateItemRequest) :
    Except DomainError (BacklogItem × ServiceState) :=
  match getByID s.store id with
  | none => Except.error DomainError.itemNotFound
  | some item0 =>
    match applyTitleUpdate item0 req.title now with
    | Except.error e => Except.error e
    | Except.ok item1 =>
      let item2 := applyDescriptionUpdate item1 req.description now
      match applyStatusUpdate item2 req.status now with
      | Except.error e => Except.error e
      | Except.ok item3 =>
        match applyPointsUpdate item3 req.storyPoints now with
        | Except.error e => Except.error e
        | Except.ok item4 =>
          let item5 := applyPriorityUpdate item4 req.priority now
          match applyParentUpdate s.store item5 req.parentID now with
          | Except.error e => Except.error e
          | Except.ok item6 =>
            let item7 := applyAssigneeUpdate item6 req.assignee
            let item8 := applyTagsUpdate item7 req.tags now
            Except.ok (item8,
              { store := repoUpdate s.store item8
                cache := invalidateListCache (cacheDelete s.cache (itemCacheKey id)) })

/-- Go `BacklogService.DeleteItem`: not-found when the item is absent,
has-children when any stored item references it as parent, otherwise removes
the row and invalidates `item:<id>`, `list:all` and `metrics`. -/
def DeleteItem (s : ServiceState) (id : Nat) : Except DomainError ServiceState :=
  match getByID s.store id with
  | none => Except.error DomainError.itemNotFound
  | some _ =>
    if (getChildrenStore s.store id).length > 0 then
      Except.error DomainError.hasChildren
    else
      Except.ok
        { store := repoDelete s.store id
          cache := invalidateListCache (cacheDelete s.cache (itemCacheKey id)) }

/-- Building the Go reorder map from the request slice: later entries for the
same id overwrite earlier ones. -/
def buildPriorityMap (reqs : List ReorderRequest) : List (Nat × Int) :=
  reqs.foldl (fun m r =>
    match m.find? (fun e => e.1 == r.itemID) with
    | some _ => m.map (fun e => if e.1 == r.itemID then (r.itemID, r.newPriority) else e)
    | none => m ++ [(r.itemID, r.newPriority)]) []

/-- Go `PostgresAdapter.UpdatePriorities`: for each map entry, set the row's
priority and `updated_at` inside one transaction. -/
def applyPriorities (store : List BacklogItem) (m : List (Nat × Int)) (now : Nat) :
    List BacklogItem :=
  m.foldl (fun st e =>
    st.map (fun it =>
      if it.id == e.1 then { it with priority := e.2, updatedAt := now } else it)) store

/-- Go `BacklogService.ReorderItems`: an empty request list returns at once
(no store write, no cache invalidation); otherwise the batch of priority
updates lands atomically and `list:all`/`metrics` are invalidated. -/
def ReorderItems (s : ServiceState) (now : Nat) (reqs : List ReorderRequest) :
    Except DomainError ServiceState :=
  if reqs = [] then Except.ok s
  else
    Except.ok
      { store := applyPriorities s.store (buildPriorityMap reqs) now
        cache := invalidateListCache s.cache }

/-- Go `BacklogService.SetExternalID`: loads the item (not-found surfaces),
upserts the external-id entry, persists, and deletes only the `item:<id>`
cache key — it does not call `invalidateListCache`. -/
def SetExternalID (s : ServiceState) (id : Nat) (system externalID : String)
    (now : Nat) : Except DomainError ServiceState :=
  match getByID s.store id with
  | none => Except.error DomainError.itemNotFound
  | some item =>
    let item' := item.setExternalID system externalID now
    Except.ok
      { store := repoUpdate s.store item'
        cache := cacheDelete s.cache (itemCacheKey id) }

/-- Spec-side restatement of the health rule for the C6 refinement
comparison, phrased exactly as the claim orders the checks, over the
precomputed total. -/
def healthStatusSpec (totalItems wipCount : Int) (leadTime : ℚ) : String :=
  if totalItems > 150 then "AT_RISK"
  else if wipCount > 20 ∨ leadTime > 60 then "WARNING"
  else if totalItems ≤ 100 ∧ wipCount ≤ 10 ∧ leadTime ≤ 30 then "HEALTHY"
  else "AVERAGE"

/-- C4: for every item whose event history is one ITEM_CREATED event followed
(in timestamp order, which is the list order returned by the event query) by
two ITEM_UPDATED events, `replayEvents` reconstructs exactly the second
update's snapshot — each update is a full-snapshot overwrite, so the result
does not depend on the first update's snapshot or on the created snapshot. -/
theorem C4_replay_two_updates (now id0 id1 id2 : Nat)
    (base u1 u2 : BacklogItem) :
    replayEvents now
      [DomainEvent.itemCreated id0 base,
       DomainEvent.itemUpdated id1 u1,
       DomainEvent.itemUpdated id2 u2] = some u2 := by
  rfl

/-- C5: the code bug behind the iceberg-ratio claim. The claim (and the
code's own comment) says the ideal share is 1/3 and that an exactly even
10/10/10 split yields ratio 1.0; the implementation compares each share
against the literal 0.33 and applies no clamping, so the even split yields
199/200 = 0.995, not 1. -/
theorem C5_iceberg_even_split_not_one :
    calculateIcebergRatio 10 10 10 = 199/200 ∧ (199/200 : ℚ) ≠ 1 := by
  constructor
  · norm_num [calculateIcebergRatio, goAbs]
  · norm_num

/-- C6: the health status is decided in exactly the claimed priority order
(refinement against `healthStatusSpec`, the rule as the claim words it);
in particular 160 total items is AT_RISK for every WIP count and lead time,
and 50 total items with WIP 25 is WARNING for every lead time. -/
theorem C6_health_status_priority_order :
    (∀ (e f st w : Int) (l : ℚ),
        determineHealthStatus e f st w l = healthStatusSpec (e + f + st) w l) ∧
    (∀ (w : Int) (l : ℚ), determineHealthStatus 160 0 0 w l = "AT_RISK") ∧
    (∀ l : ℚ, determineHealthStatus 50 0 0 25 l = "WARNING") := by
  refine ⟨fun e f st w l => rfl, fun w l => by norm_num [determineHealthStatus], fun l => by norm_num [determineHealthStatus]⟩

theorem isValidItemType_eq_true (t : ItemType) : isValidItemType t = true := by
  cases t <;> rfl

theorem isValidItemStatus_eq_true (st : ItemStatus) : isValidItemStatus st = true := by
  cases st <;> rfl

theorem cacheLookup_cons (e : String × CacheVal) (rest : List (String × CacheVal))
    (k : String) :
    cacheLookup (e :: rest) k = if e.1 = k then some e.2 else cacheLookup rest k := by
  by_cases h : e.1 = k <;> simp [cacheLookup, List.find?_cons, h]

theorem cacheDelete_cons (e : String × CacheVal) (rest : List (String × CacheVal))
    (k : String) :
    cacheDelete (e :: rest) k =
      if e.1 = k then cacheDelete rest k else e :: cacheDelete rest k := by
  by_cases h : e.1 = k <;> simp [cacheDelete, List.filter_cons, h]

theorem cacheGetItem_cons (e : String × CacheVal) (rest : List (String × CacheVal))
    (k : String) :
    cacheGetItem (e :: rest) k =
      if e.1 = k then
        (match e.2 with | CacheVal.itemVal it => some it | _ => none)
      else cacheGetItem rest k := by
  unfold cacheGetItem
  rw [cacheLookup_cons]
  by_cases h : e.1 = k
  · rw [if_pos h, if_pos h]
    cases e.2 <;> rfl
  · rw [if_neg h, if_neg h]

theorem cacheGetItem_delete_self (c : List (String × CacheVal)) (k : String) :
    cacheGetItem (cacheDelete c k) k = none := by
  induction c with
  | nil => rfl
  | cons e rest ih =>
    rw [cacheDelete_cons]
    by_cases h : e.1 = k
    · rw [if_pos h]; exact ih
    · rw [if_neg h, cacheGetItem_cons, if_neg h]; exact ih

theorem cacheGetItem_delete_of_none (c : List (String × CacheVal)) (k' k : String)
    (h : cacheGetItem c k = none) : cacheGetItem (cacheDelete c k') k = none := by
  induction c with
  | nil => rfl
  | cons e rest ih =>
    rw [cacheGetItem_cons] at h
    rw [cacheDelete_cons]
    by_cases hek : e.1 = k
    · rw [if_pos hek] at h
      by_cases hek' : e.1 = k'
      · rw [if_pos hek']
        have hkk : k' = k := by rw [← hek, hek']
        rw [hkk]
        exact cacheGetItem_delete_self rest k
      · rw [if_neg hek', cacheGetItem_cons, if_pos hek]
        exact h
    · rw [if_neg hek] at h
      by_cases hek' : e.1 = k'
      · rw [if_pos hek']; exact ih h
      · rw [if_neg hek', cacheGetItem_cons, if_neg hek]; exact ih h

theorem getByID_repoDelete_self (store : List BacklogItem) (id : Nat) :
    getByID (repoDelete store id) id = none := by
  unfold getByID repoDelete
  rw [List.find?_eq_none]
  intro x hx
  have hmem := List.mem_filter.mp hx
  simp only [decide_eq_true_eq] at hmem
  simp only [beq_iff_eq]
  exact hmem.2

theorem addTag_fields (i : BacklogItem) (tag : String) (now : Nat) :
    (i.addTag tag now).id = i.id ∧ (i.addTag tag now).type = i.type ∧
    (i.addTag tag now).title = i.title ∧
    (i.addTag tag now).description = i.description ∧
    (i.addTag tag now).storyPoints = i.storyPoints ∧
    (i.addTag tag now).status = i.status ∧
    (i.addTag tag now).priority = i.priority ∧
    (i.addTag tag now).assignee = i.assignee ∧
    (i.addTag tag now).externalIds = i.externalIds ∧
    (i.addTag tag now).parentId = i.parentId := by
  unfold BacklogItem.addTag
  split <;> exact ⟨rfl, rfl, rfl, rfl, rfl, rfl, rfl, rfl, rfl, rfl⟩

theorem foldl_addTag_fields (tags : List String) (i : BacklogItem) (now : Nat) :
    (tags.foldl (fun it tag => it.addTag tag now) i).id = i.id ∧
    (tags.foldl (fun it tag => it.addTag tag now) i).type = i.type ∧
    (tags.foldl (fun it tag => it.addTag tag now) i).title = i.title ∧
    (tags.foldl (fun it tag => it.addTag tag now) i).description = i.description ∧
    (tags.foldl (fun it tag => it.addTag tag now) i).storyPoints = i.storyPoints ∧
    (tags.foldl (fun it tag => it.addTag tag now) i).status = i.status ∧
    (tags.foldl (fun it tag => it.addTag tag now) i).priority = i.priority ∧
    (tags.foldl (fun it tag => it.addTag tag now) i).assignee = i.assignee ∧
    (tags.foldl (fun it tag => it.addTag tag now) i).externalIds = i.externalIds ∧
    (tags.foldl (fun it tag => it.addTag tag now) i).parentId = i.parentId := by
  induction tags generalizing i with
  | nil => exact ⟨rfl, rfl, rfl, rfl, rfl, rfl, rfl, rfl, rfl, rfl⟩
  | cons tg rest ih =>
    have h1 := ih (i.addTag tg now)
    have h2 := addTag_fields i tg now
    simp only [List.foldl_cons]
    exact ⟨h1.1.trans h2.1, h1.2.1.trans h2.2.1, h1.2.2.1.trans h2.2.2.1,
      h1.2.2.2.1.trans h2.2.2.2.1, h1.2.2.2.2.1.trans h2.2.2.2.2.1,
      h1.2.2.2.2.2.1.trans h2.2.2.2.2.2.1, h1.2.2.2.2.2.2.1.trans h2.2.2.2.2.2.2.1,
      h1.2.2.2.2.2.2.2.1.trans h2.2.2.2.2.2.2.2.1,
      h1.2.2.2.2.2.2.2.2.1.trans h2.2.2.2.2.2.2.2.2.1,
      h1.2.2.2.2.2.2.2.2.2.trans h2.2.2.2.2.2.2.2.2.2⟩

theorem NewBacklogItem_ok (fid now : Nat) (ty : ItemType) (ti d : String)
    (hti : ti ≠ "") :
    NewBacklogItem fid now ty ti d = Except.ok
      { id := fid, type := ty, parentId := none, title := ti, description := d,
        storyPoints := 0, status := ItemStatus.NEW, priority := 0, assignee := "",
        tags := [], createdAt := now, updatedAt := now, externalIds := [] } := by
  unfold NewBacklogItem
  rw [if_neg hti, if_neg]
  simp [isValidItemType_eq_true]

theorem NewBacklogItem_ok_elim (fid now : Nat) (ty : ItemType) (ti d : String)
    (item0 : BacklogItem) (h : NewBacklogItem fid now ty ti d = Except.ok item0) :
    ti ≠ "" ∧ item0 =
      { id := fid, type := ty, parentId := none, title := ti, description := d,
        storyPoints := 0, status := ItemStatus.NEW, priority := 0, assignee := "",
        tags := [], createdAt := now, updatedAt := now, externalIds := [] } := by
  by_cases hti : ti = ""
  · rw [NewBacklogItem, if_pos hti] at h
    exact absurd h (by simp)
  · rw [NewBacklogItem_ok fid now ty ti d hti] at h
    injection h with h'
    exact ⟨hti, h'.symm⟩

theorem updateParent_ok_elim (i : BacklogItem) (pid : Option Nat) (now : Nat)
    (j : BacklogItem) (h : i.updateParent pid now = Except.ok j) :
    j = { i with parentId := pid, updatedAt := now } := by
  unfold BacklogItem.updateParent at h
  split at h
  · exact absurd h (by simp)
  · injection h with h'
    exact h'.symm

theorem updateStoryPoints_ok_elim (i : BacklogItem) (p : Int) (now : Nat)
    (j : BacklogItem) (h : i.updateStoryPoints p now = Except.ok j) :
    ¬ p < 0 ∧ j = { i with storyPoints := p, updatedAt := now } := by
  unfold BacklogItem.updateStoryPoints at h
  split at h
  · exact absurd h (by simp)
  · injection h with h'
    exact ⟨by assumption, h'.symm⟩

theorem createLinkParent_ok_fields (store : List BacklogItem)
    (item0 : BacklogItem) (now : Nat) (req : CreateItemRequest)
    (item1 : BacklogItem)
    (h : createLinkParent store item0 now req = Except.ok item1) :
    item1.id = item0.id ∧ item1.type = item0.type ∧ item1.title = item0.title ∧
    item1.description = item0.description ∧
    item1.storyPoints = item0.storyPoints ∧ item1.status = item0.status ∧
    item1.priority = item0.priority ∧ item1.assignee = item0.assignee ∧
    item1.externalIds = item0.externalIds ∧ item1.tags = item0.tags := by
  unfold createLinkParent at h
  split at h
  · injection h with h'
    subst h'
    exact ⟨rfl, rfl, rfl, rfl, rfl, rfl, rfl, rfl, rfl, rfl⟩
  · split at h
    · exact absurd h (by simp)
    next itemP heqP =>
      have hP := updateParent_ok_elim _ _ _ _ heqP
      subst hP
      split at h
      · exact absurd h (by simp)
      · split at h
        · exact absurd h (by simp)
        · injection h with h'
          subst h'
          exact ⟨rfl, rfl, rfl, rfl, rfl, rfl, rfl, rfl, rfl, rfl⟩

theorem createApplyPoints_ok_fields (item1 : BacklogItem) (sp : Int) (now : Nat)
    (item2 : BacklogItem) (h : createApplyPoints item1 sp now = Except.ok item2) :
    item2.id = item1.id ∧ item2.type = item1.type ∧ item2.title = item1.title ∧
    item2.description = item1.description ∧
    item2.storyPoints = (if sp > 0 then sp else item1.storyPoints) ∧
    item2.status = item1.status ∧ item2.priority = item1.priority ∧
    item2.assignee = item1.assignee ∧ item2.externalIds = item1.externalIds ∧
    item2.tags = item1.tags := by
  unfold createApplyPoints at h
  split at h
  next hsp =>
    obtain ⟨-, h2⟩ := updateStoryPoints_ok_elim _ _ _ _ h
    subst h2
    rw [if_pos hsp]
    exact ⟨rfl, rfl, rfl, rfl, rfl, rfl, rfl, rfl, rfl, rfl⟩
  next hsp =>
    injection h with h'
    subst h'
    rw [if_neg hsp]
    exact ⟨rfl, rfl, rfl, rfl, rfl, rfl, rfl, rfl, rfl, rfl⟩

theorem CreateItem_ok_fields (s : ServiceState) (fid now : Nat)
    (req : CreateItemRequest) (item : BacklogItem) (s' : ServiceState)
    (h : CreateItem s fid now req = Except.ok (item, s')) :
    item.id = fid ∧ item.type = req.type ∧ item.title = req.title ∧
    req.title ≠ "" ∧ item.status = ItemStatus.NEW ∧ item.priority = 0 ∧
    item.assignee = "" ∧ item.externalIds = [] ∧
    item.storyPoints = (if req.storyPoints > 0 then req.storyPoints else 0) ∧
    (req.tags = [] → item.tags = []) ∧
    s'.store = s.store ++ [item] ∧ s'.cache = invalidateListCache s.cache := by
  unfold CreateItem at h
  split at h
  · exact absurd h (by simp)
  next item0 heq0 =>
    obtain ⟨hti, hit0⟩ :=
      NewBacklogItem_ok_elim fid now req.type req.title req.description item0 heq0
    subst hit0
    split at h
    · exact absurd h (by simp)
    next item1 heq1 =>
      have hf1 := createLinkParent_ok_fields _ _ _ _ _ heq1
      split at h
      · exact absurd h (by simp)
      next item2 heq2 =>
        have hf2 := createApplyPoints_ok_fields _ _ _ _ heq2
        injection h with h'
        have hitem := congrArg Prod.fst h'
        have hstate := congrArg Prod.snd h'
        simp only at hitem hstate
        subst hitem
        subst hstate
        have F := foldl_addTag_fields req.tags item2 now
        refine ⟨F.1.trans (hf2.1.trans (hf1.1.trans rfl)),
          F.2.1.trans (hf2.2.1.trans (hf1.2.1.trans rfl)),
          F.2.2.1.trans (hf2.2.2.1.trans (hf1.2.2.1.trans rfl)),
          hti,
          F.2.2.2.2.2.1.trans (hf2.2.2.2.2.2.1.trans (hf1.2.2.2.2.2.1.trans rfl)),
          F.2.2.2.2.2.2.1.trans (hf2.2.2.2.2.2.2.1.trans (hf1.2.2.2.2.2.2.1.trans rfl)),
          F.2.2.2.2.2.2.2.1.trans (hf2.2.2.2.2.2.2.2.1.trans (hf1.2.2.2.2.2.2.2.1.trans rfl)),
          F.2.2.2.2.2.2.2.2.1.trans (hf2.2.2.2.2.2.2.2.2.1.trans (hf1.2.2.2.2.2.2.2.2.1.trans rfl)),
          ?_, ?_, rfl, rfl⟩
        · rw [F.2.2.2.2.1, hf2.2.2.2.2.1, hf1.2.2.2.2.1]
        · intro htags
          rw [htags]
          simp only [List.foldl_nil]
          exact hf2.2.2.2.2.2.2.2.2.2.trans (hf1.2.2.2.2.2.2.2.2.2.trans rfl)

/-- C3: `DeleteItem` fails not-found when the id is absent; fails
has-children when some stored item references it as parent (the error return
leaves the state untouched); and for a childless existing item it succeeds,
after which `GetItem` on that id fails not-found (the item cache entry was
invalidated and the row deleted). -/
theorem C3_delete_item_rules (s : ServiceState) (id : Nat) :
    (getByID s.store id = none →
      DeleteItem s id = Except.error DomainError.itemNotFound) ∧
    (∀ item, getByID s.store id = some item →
      getChildrenStore s.store id ≠ [] →
      DeleteItem s id = Except.error DomainError.hasChildren) ∧
    (∀ item, getByID s.store id = some item →
      getChildrenStore s.store id = [] →
      ∃ s', DeleteItem s id = Except.ok s' ∧
        GetItem s' id = Except.error DomainError.itemNotFound) := by
  refine ⟨?_, ?_, ?_⟩
  · intro h
    unfold DeleteItem
    rw [h]
  · intro item h hch
    unfold DeleteItem
    rw [h]
    simp only []
    rw [if_pos (List.length_pos.mpr hch)]
  · intro item h hch
    unfold DeleteItem
    rw [h]
    simp only []
    rw [if_neg (by rw [hch]; simp)]
    refine ⟨_, rfl, ?_⟩
    unfold GetItem
    dsimp only
    have hc1 : cacheGetItem
        (invalidateListCache (cacheDelete s.cache (itemCacheKey id)))
        (itemCacheKey id) = none := by
      unfold invalidateListCache
      exact cacheGetItem_delete_of_none _ _ _
        (cacheGetItem_delete_of_none _ _ _ (cacheGetItem_delete_self _ _))
    rw [hc1]
    dsimp only
    rw [getByID_repoDelete_self]

/-- Witness for C3 at concrete inputs: deleting a missing id 1 from an empty
store, deleting an epic with a child, and deleting a childless story after
which the lookup fails. -/
theorem C3_witness :
    (DeleteItem ⟨[], []⟩ 1 = Except.error DomainError.itemNotFound) ∧
    (DeleteItem
        ⟨[⟨1, ItemType.EPIC, none, "e", "", 0, ItemStatus.NEW, 0, "", [], 0, 0, []⟩,
          ⟨2, ItemType.FEATURE, some 1, "f", "", 0, ItemStatus.NEW, 0, "", [], 0, 0, []⟩], []⟩
        1 = Except.error DomainError.hasChildren) ∧
    (∃ s', DeleteItem
        ⟨[⟨1, ItemType.STORY, none, "s", "", 0, ItemStatus.NEW, 0, "", [], 0, 0, []⟩], []⟩
        1 = Except.ok s' ∧
      GetItem s' 1 = Except.error DomainError.itemNotFound) :=
  ⟨(C3_delete_item_rules ⟨[], []⟩ 1).1 rfl,
   (C3_delete_item_rules
      ⟨[⟨1, ItemType.EPIC, none, "e", "", 0, ItemStatus.NEW, 0, "", [], 0, 0, []⟩,
        ⟨2, ItemType.FEATURE, some 1, "f", "", 0, ItemStatus.NEW, 0, "", [], 0, 0, []⟩], []⟩
      1).2.1 ⟨1, ItemType.EPIC, none, "e", "", 0, ItemStatus.NEW, 0, "", [], 0, 0, []⟩
      rfl (by decide),
   (C3_delete_item_rules
      ⟨[⟨1, ItemType.STORY, none, "s", "", 0, ItemStatus.NEW, 0, "", [], 0, 0, []⟩], []⟩
      1).2.2 ⟨1, ItemType.STORY, none, "s", "", 0, ItemStatus.NEW, 0, "", [], 0, 0, []⟩
      rfl rfl⟩

theorem applyTitleUpdate_some (i : BacklogItem) (t : String) (now : Nat) :
    applyTitleUpdate i (some t) now = i.updateTitle t now := rfl

theorem UpdateItem_ok_cache (s : ServiceState) (id now : Nat)
    (req : UpdateItemRequest) (item : BacklogItem) (s' : ServiceState)
    (h : UpdateItem s id now req = Except.ok (item, s')) :
    s'.cache = invalidateListCache (cacheDelete s.cache (itemCacheKey id)) := by
  unfold UpdateItem at h
  split at h
  · exact absurd h (by simp)
  next item0 heq0 =>
    split at h
    · exact absurd h (by simp)
    next item1 heq1 =>
      dsimp only at h
      split at h
      · exact absurd h (by simp)
      next item3 heq3 =>
        split at h
        · exact absurd h (by simp)
        next item4 heq4 =>
          split at h
          · exact absurd h (by simp)
          next item6 heq6 =>
            injection h with h'
            have hstate := congrArg Prod.snd h'
            simp only at hstate
            rw [← hstate]

theorem UpdateItem_negative_points_err (s : ServiceState) (id now : Nat)
    (req : UpdateItemRequest) (p : Int) (item0 : BacklogItem)
    (hGet : getByID s.store id = some item0)
    (hTitle : ∀ t, req.title = some t → t ≠ "")
    (hp : req.storyPoints = some p) (hneg : p < 0) :
    UpdateItem s id now req = Except.error DomainError.negativeStoryPoints := by
  unfold UpdateItem
  rw [hGet]
  simp only []
  obtain ⟨item1, h1⟩ : ∃ item1,
      applyTitleUpdate item0 req.title now = Except.ok item1 := by
    cases htt : req.title with
    | none => exact ⟨item0, rfl⟩
    | some t =>
      refine ⟨{ item0 with title := t, updatedAt := now }, ?_⟩
      rw [applyTitleUpdate_some]
      unfold BacklogItem.updateTitle
      rw [if_neg (hTitle t htt)]
  rw [h1]
  simp only []
  obtain ⟨item3, h3⟩ : ∃ item3,
      applyStatusUpdate (applyDescriptionUpdate item1 req.description now)
        req.status now = Except.ok item3 := by
    cases req.status with
    | none => exact ⟨_, rfl⟩
    | some st =>
      refine ⟨{ applyDescriptionUpdate item1 req.description now with
        status := st, updatedAt := now }, ?_⟩
      unfold applyStatusUpdate BacklogItem.updateStatus
      simp only []
      rw [if_neg (by simp [isValidItemStatus_eq_true])]
  rw [h3]
  simp only []
  have h4 : applyPointsUpdate item3 req.storyPoints now =
      Except.error DomainError.negativeStoryPoints := by
    rw [hp]
    unfold applyPointsUpdate BacklogItem.updateStoryPoints
    simp only []
    rw [if_pos hneg]
  rw [h4]

/-- C8 counterexample: `CreateItem` does not reject negative story points —
the source guards the `UpdateStoryPoints` call with `req.StoryPoints > 0`, so
a request carrying -5 story points succeeds (no validation error, the item is
persisted with story points 0), refuting the claim that every CreateItem
request with negative story points is rejected before any write. -/
theorem C8_counterexample_create_accepts_negative_points :
    ∃ item s',
      CreateItem ⟨[], []⟩ 1 0 ⟨ItemType.STORY, "t", "", none, -5, [], ""⟩ =
        Except.ok (item, s') ∧ item.storyPoints = 0 ∧
      s'.store = [item] :=
  ⟨⟨1, ItemType.STORY, none, "t", "", 0, ItemStatus.NEW, 0, "", [], 0, 0, []⟩,
   ⟨[⟨1, ItemType.STORY, none, "t", "", 0, ItemStatus.NEW, 0, "", [], 0, 0, []⟩], []⟩,
   rfl, rfl, rfl⟩

/-- C8 as amended: only `UpdateItem` rejects negative story points (with the
negative-story-points validation error, raised before the store write);
`CreateItem` silently ignores any non-positive story-points value and
persists the item with story points 0. The UpdateItem half assumes the
request reaches the story-points step: the item exists and any requested
title is non-empty (earlier steps in the source run first). -/
theorem C8_amended_story_points (s sC : ServiceState) (id now fid nowC : Nat)
    (ureq : UpdateItemRequest) (p : Int) (item0 : BacklogItem)
    (creq : CreateItemRequest) (item : BacklogItem) (s' : ServiceState)
    (hGet : getByID s.store id = some item0)
    (hTitle : ∀ t, ureq.title = some t → t ≠ "")
    (hp : ureq.storyPoints = some p) (hneg : p < 0)
    (hCneg : creq.storyPoints < 0)
    (hC : CreateItem sC fid nowC creq = Except.ok (item, s')) :
    UpdateItem s id now ureq = Except.error DomainError.negativeStoryPoints ∧
    item.storyPoints = 0 := by
  constructor
  · exact UpdateItem_negative_points_err s id now ureq p item0 hGet hTitle hp hneg
  · have hf := CreateItem_ok_fields sC fid nowC creq item s' hC
    rw [hf.2.2.2.2.2.2.2.2.1, if_neg (by omega)]

/-- Witness for the amended C8 at concrete inputs: an update carrying -3
story points against a one-item store, and a create carrying -5. -/
theorem C8_witness :
    (UpdateItem
        ⟨[⟨1, ItemType.STORY, none, "t", "", 0, ItemStatus.NEW, 0, "", [], 0, 0, []⟩], []⟩
        1 0 ⟨none, none, none, none, some (-3), none, none, none⟩ =
      Except.error DomainError.negativeStoryPoints) ∧
    (⟨2, ItemType.STORY, none, "c", "", 0, ItemStatus.NEW, 0, "", [], 0, 0, []⟩ :
      BacklogItem).storyPoints = 0 :=
  C8_amended_story_points
    ⟨[⟨1, ItemType.STORY, none, "t", "", 0, ItemStatus.NEW, 0, "", [], 0, 0, []⟩], []⟩
    ⟨[], []⟩ 1 0 2 0
    ⟨none, none, none, none, some (-3), none, none, none⟩ (-3)
    ⟨1, ItemType.STORY, none, "t", "", 0, ItemStatus.NEW, 0, "", [], 0, 0, []⟩
    ⟨ItemType.STORY, "c", "", none, -5, [], ""⟩
    ⟨2, ItemType.STORY, none, "c", "", 0, ItemStatus.NEW, 0, "", [], 0, 0, []⟩
    ⟨[⟨2, ItemType.STORY, none, "c", "", 0, ItemStatus.NEW, 0, "", [], 0, 0, []⟩], []⟩
    rfl (by simp) rfl (by decide) (by decide) (by rfl)

/-- C9 counterexample: two successful mutating operations that do not delete
the `metrics` key. `SetExternalID` deletes only the item's own cache key, and
`ReorderItems` on an empty request list returns before any invalidation — in
both cases a pre-existing `metrics` cache entry survives, refuting the claim
that every successful mutating operation deletes at minimum the `metrics`
and `list:all` keys. -/
theorem C9_counterexample_mutations_keep_metrics :
    (∃ s', SetExternalID
        ⟨[⟨1, ItemType.STORY, none, "t", "", 0, ItemStatus.NEW, 0, "", [], 0, 0, []⟩],
         [("metrics", CacheVal.metricsVal)]⟩
        1 "jira" "PROJ-1" 5 = Except.ok s' ∧
      cacheLookup s'.cache "metrics" = some CacheVal.metricsVal) ∧
    (∃ s', ReorderItems
        ⟨[⟨1, ItemType.STORY, none, "t", "", 0, ItemStatus.NEW, 0, "", [], 0, 0, []⟩],
         [("metrics", CacheVal.metricsVal)]⟩
        0 [] = Except.ok s' ∧
      cacheLookup s'.cache "metrics" = some CacheVal.metricsVal) :=
  ⟨⟨⟨[⟨1, ItemType.STORY, none, "t", "", 0, ItemStatus.NEW, 0, "", [], 0, 5,
       [("jira", "PROJ-1")]⟩],
     [("metrics", CacheVal.metricsVal)]⟩,
    by rfl, by rfl⟩,
   ⟨⟨[⟨1, ItemType.STORY, none, "t", "", 0, ItemStatus.NEW, 0, "", [], 0, 0, []⟩],
     [("metrics", CacheVal.metricsVal)]⟩,
    by rfl, by rfl⟩⟩

/-- C9 as amended: successful `CreateItem`, `UpdateItem`, `DeleteItem` and
non-empty `ReorderItems` delete the `list:all` and `metrics` keys
(`UpdateItem` and `DeleteItem` additionally delete `item:<id>`, `CreateItem`
and `ReorderItems` delete no item key); `SetExternalID` deletes only
`item:<id>`; an empty `ReorderItems` deletes nothing. Each conjunct gives the
exact post-operation cache. -/
theorem C9_amended_cache_invalidation (s : ServiceState) :
    (∀ fid now req item s', CreateItem s fid now req = Except.ok (item, s') →
      s'.cache = invalidateListCache s.cache) ∧
    (∀ id now req item s', UpdateItem s id now req = Except.ok (item, s') →
      s'.cache = invalidateListCache (cacheDelete s.cache (itemCacheKey id))) ∧
    (∀ id s', DeleteItem s id = Except.ok s' →
      s'.cache = invalidateListCache (cacheDelete s.cache (itemCacheKey id))) ∧
    (∀ now reqs s', reqs ≠ [] → ReorderItems s now reqs = Except.ok s' →
      s'.cache = invalidateListCache s.cache) ∧
    (∀ id system externalID now s',
      SetExternalID s id system externalID now = Except.ok s' →
      s'.cache = cacheDelete s.cache (itemCacheKey id)) ∧
    (∀ now, ReorderItems s now [] = Except.ok s) := by
  refine ⟨?_, ?_, ?_, ?_, ?_, ?_⟩
  · intro fid now req item s' h
    exact (CreateItem_ok_fields s fid now req item s' h).2.2.2.2.2.2.2.2.2.2.2
  · intro id now req item s' h
    exact UpdateItem_ok_cache s id now req item s' h
  · intro id s' h
    unfold DeleteItem at h
    split at h
    · exact absurd h (by simp)
    · split at h
      · exact absurd h (by simp)
      · injection h with h'
        rw [← h']
  · intro now reqs s' hne h
    unfold ReorderItems at h
    rw [if_neg hne] at h
    injection h with h'
    rw [← h']
  · intro id system externalID now s' h
    unfold SetExternalID at h
    split at h
    · exact absurd h (by simp)
    · injection h with h'
      rw [← h']
  · intro now
    unfold ReorderItems
    rw [if_pos rfl]

/-- Witness for the amended C9: the six clauses run against a one-item store
with an empty cache, each application discharging its success equation at the
concrete input. -/
theorem C9_witness :
    ((⟨[⟨1, ItemType.STORY, none, "t", "", 0, ItemStatus.NEW, 0, "", [], 0, 0, []⟩,
        ⟨2, ItemType.STORY, none, "c", "", 0, ItemStatus.NEW, 0, "", [], 0, 0, []⟩],
       []⟩ : ServiceState).cache =
      invalidateListCache ([] : List (String × CacheVal))) ∧
    ((⟨[⟨1, ItemType.STORY, none, "t", "", 0, ItemStatus.NEW, 0, "", [], 0, 0, []⟩],
       []⟩ : ServiceState).cache =
      invalidateListCache (cacheDelete ([] : List (String × CacheVal)) (itemCacheKey 1))) ∧
    ((⟨[], []⟩ : ServiceState).cache =
      invalidateListCache (cacheDelete ([] : List (String × CacheVal)) (itemCacheKey 1))) ∧
    ((⟨[⟨1, ItemType.STORY, none, "t", "", 0, ItemStatus.NEW, 7, "", [], 0, 4, []⟩],
       []⟩ : ServiceState).cache =
      invalidateListCache ([] : List (String × CacheVal))) ∧
    ((⟨[⟨1, ItemType.STORY, none, "t", "", 0, ItemStatus.NEW, 0, "", [], 0, 5,
        [("jira", "X")]⟩], []⟩ : ServiceState).cache =
      cacheDelete ([] : List (String × CacheVal)) (itemCacheKey 1)) ∧
    (ReorderItems
        ⟨[⟨1, ItemType.STORY, none, "t", "", 0, ItemStatus.NEW, 0, "", [], 0, 0, []⟩], []⟩
        6 [] =
      Except.ok
        ⟨[⟨1, ItemType.STORY, none, "t", "", 0, ItemStatus.NEW, 0, "", [], 0, 0, []⟩], []⟩) :=
  ⟨(C9_amended_cache_invalidation
      ⟨[⟨1, ItemType.STORY, none, "t", "", 0, ItemStatus.NEW, 0, "", [], 0, 0, []⟩], []⟩).1
      2 0 ⟨ItemType.STORY, "c", "", none, 0, [], ""⟩
      ⟨2, ItemType.STORY, none, "c", "", 0, ItemStatus.NEW, 0, "", [], 0, 0, []⟩
      _ (by rfl),
   (C9_amended_cache_invalidation
      ⟨[⟨1, ItemType.STORY, none, "t", "", 0, ItemStatus.NEW, 0, "", [], 0, 0, []⟩], []⟩).2.1
      1 3 ⟨none, none, none, none, none, none, none, none⟩
      ⟨1, ItemType.STORY, none, "t", "", 0, ItemStatus.NEW, 0, "", [], 0, 0, []⟩
      _ (by rfl),
   (C9_amended_cache_invalidation
      ⟨[⟨1, ItemType.STORY, none, "t", "", 0, ItemStatus.NEW, 0, "", [], 0, 0, []⟩], []⟩).2.2.1
      1 _ (by rfl),
   (C9_amended_cache_invalidation
      ⟨[⟨1, ItemType.STORY, none, "t", "", 0, ItemStatus.NEW, 0, "", [], 0, 0, []⟩], []⟩).2.2.2.1
      4 [⟨1, 7⟩] _ (by decide) (by rfl),
   (C9_amended_cache_invalidation
      ⟨[⟨1, ItemType.STORY, none, "t", "", 0, ItemStatus.NEW, 0, "", [], 0, 0, []⟩], []⟩).2.2.2.2.1
      1 "jira" "X" 5 _ (by rfl),
   (C9_amended_cache_invalidation
      ⟨[⟨1, ItemType.STORY, none, "t", "", 0, ItemStatus.NEW, 0, "", [], 0, 0, []⟩], []⟩).2.2.2.2.2
      6⟩

/-- C10: `CreateItem` ignores the request's assignee — the created and
persisted item always carries the empty assignee string, for every request
including one with a non-empty assignee (the assignee is attached only by a
later `UpdateItem`, whose assignee step sets the field). -/
theorem C10_create_ignores_assignee (s : ServiceState) (fid now : Nat)
    (req : CreateItemRequest) (item : BacklogItem) (s' : ServiceState)
    (h : CreateItem s fid now req = Except.ok (item, s')) :
    item.assignee = "" ∧ s'.store = s.store ++ [item] := by
  have hf := CreateItem_ok_fields s fid now req item s' h
  exact ⟨hf.2.2.2.2.2.2.1, hf.2.2.2.2.2.2.2.2.2.2.1⟩

/-- Witness for C10 at a concrete input: a request whose assignee is
"alice" still produces an item with empty assignee. -/
theorem C10_witness :
    (CreateItem ⟨[], []⟩ 1 0 ⟨ItemType.STORY, "t", "", none, 0, [], "alice"⟩ =
      Except.ok
        (⟨1, ItemType.STORY, none, "t", "", 0, ItemStatus.NEW, 0, "", [], 0, 0, []⟩,
         ⟨[⟨1, ItemType.STORY, none, "t", "", 0, ItemStatus.NEW, 0, "", [], 0, 0, []⟩],
          []⟩)) ∧
    (⟨1, ItemType.STORY, none, "t", "", 0, ItemStatus.NEW, 0, "", [], 0, 0, []⟩ :
      BacklogItem).assignee = "" :=
  ⟨by rfl,
   (C10_create_ignores_assignee ⟨[], []⟩ 1 0
      ⟨ItemType.STORY, "t", "", none, 0, [], "alice"⟩
      ⟨1, ItemType.STORY, none, "t", "", 0, ItemStatus.NEW, 0, "", [], 0, 0, []⟩
      ⟨[⟨1, ItemType.STORY, none, "t", "", 0, ItemStatus.NEW, 0, "", [], 0, 0, []⟩], []⟩
      (by rfl)).1⟩
